import Mathlib

/-!
Verification of the flask-dynamo connection/table registry
(`flask_dynamo/manager.py`).

The Python module manages a DynamoDB connection and a registry of table
handles scoped to the Flask application context.  We shallowly embed the
module: the Flask application context becomes an explicit `Ctx` value
threaded through each operation, the application configuration becomes a
`Config` record, and the boto `connect_to_region` constructor is modelled
as allocating a fresh `Conn` value tagged with a fresh allocation id
(drawn from an explicit counter), so that object identity ("the identical
cached instance") is observable.  Python exceptions become an explicit
`PyError` type returned through `Except`; Python attribute mutation
becomes functional record update with the updated values returned.
-/

namespace FlaskDynamo

/-- Python truthiness of an optional string configuration value:
`None` and the empty string are falsy, every other string is truthy. -/
def truthyStr : Option String → Bool
  | none => false
  | some s => !(s == "")

/-- Errors observable from the embedded code.  `configurationError` models
`flask_dynamo.errors.ConfigurationError`; the others model the built-in
Python exception classes raised by the code paths we embed. -/
inductive PyError where
  | configurationError (msg : String)
  | attributeError
  | recursionError
  | typeError
  | valueError
  | clientError
deriving Repr, DecidableEq

/-- A DynamoDB connection as produced by `connect_to_region`.  The `alloc`
field is the allocation id of the underlying Python object: every call to
the constructor yields a fresh id, so `alloc` equality models reference
equality (`is`). -/
structure Conn where
  alloc : Nat
  region : String
  aws_access_key_id : Option String
  aws_secret_access_key : Option String
  host : Option String
  port : Option Int
  is_secure : Bool
deriving Repr, DecidableEq

/-- A boto `Table` descriptor as stored in `DYNAMO_TABLES`: its name, the
declared schema / throughput / index metadata (opaque, modelled as tags),
and the mutable `connection` attribute the registry reassigns. -/
structure Table where
  table_name : String
  schema : Nat
  throughput : Nat
  indexes : Nat
  global_indexes : Nat
  connection : Option Conn
deriving Repr, DecidableEq

/-- The relevant slice of `app.config` after `init_settings` has run. -/
structure Config where
  DYNAMO_TABLES : List Table
  DYNAMO_ENABLE_LOCAL : Bool
  DYNAMO_LOCAL_HOST : Option String
  DYNAMO_LOCAL_PORT : Option String
  AWS_ACCESS_KEY_ID : Option String
  AWS_SECRET_ACCESS_KEY : Option String
  AWS_REGION : String
deriving Repr, DecidableEq

/-- Model of `Dynamo.check_settings`: raises `ConfigurationError` when no table is
declared, or when local mode is enabled but host or port is falsy. -/
def check_settings (config : Config) : Except PyError Unit :=
  if config.DYNAMO_TABLES.isEmpty then
    .error (.configurationError "You must specify at least one Dynamo table to use.")
  else if config.DYNAMO_ENABLE_LOCAL &&
      !(truthyStr config.DYNAMO_LOCAL_HOST && truthyStr config.DYNAMO_LOCAL_PORT) then
    .error (.configurationError "If you have enabled Dynamo local, you must specify the host and port.")
  else
    .ok ()

/-- Decimal digit accumulation for the model of Python `int(str)`. -/
def parseDigits : List Char → Nat → Option Nat
  | [], acc => some acc
  | c :: cs, acc =>
    if c.isDigit then parseDigits cs (acc * 10 + (c.toNat - 48)) else none

/-- The model of Python `int(str)` on the character list of the string:
an optional sign followed by at least one decimal digit; anything else
raises `ValueError`. -/
def pyIntOfChars : List Char → Option Int
  | [] => none
  | c :: cs =>
    if c == '-' then
      match cs with
      | [] => none
      | _ => (parseDigits cs 0).map (fun n => -(n : Int))
    else if c == '+' then
      match cs with
      | [] => none
      | _ => (parseDigits cs 0).map (fun n => (n : Int))
    else (parseDigits (c :: cs) 0).map (fun n => (n : Int))

/-- Python `int(x)` applied to the `DYNAMO_LOCAL_PORT` configuration value:
`int(None)` raises `TypeError`, a non-numeric string raises `ValueError`. -/
def pyInt : Option String → Except PyError Int
  | none => .error .typeError
  | some s =>
    match pyIntOfChars s.data with
    | none => .error .valueError
    | some n => .ok n

/-- Decidable equality on `Except`, by cases on the two constructors. -/
def exceptDecEq {ε α : Type} [DecidableEq ε] [DecidableEq α] :
    (a b : Except ε α) → Decidable (a = b)
  | .error e1, .error e2 =>
    if h : e1 = e2 then .isTrue (by rw [h])
    else .isFalse (fun hc => by cases hc; exact h rfl)
  | .error _, .ok _ => .isFalse (fun hc => by cases hc)
  | .ok _, .error _ => .isFalse (fun hc => by cases hc)
  | .ok a1, .ok a2 =>
    if h : a1 = a2 then .isTrue (by rw [h])
    else .isFalse (fun hc => by cases hc; exact h rfl)

instance {ε α : Type} [DecidableEq ε] [DecidableEq α] : DecidableEq (Except ε α) :=
  exceptDecEq

/-- The keyword arguments actually passed to `connect_to_region` after the
`del` statements have pruned the dictionary.  `none` means the key was
deleted (omitted), so the underlying library never sees it. -/
structure ConnKwargs where
  aws_access_key_id : Option String
  aws_secret_access_key : Option String
  host : Option String
  port : Option Int
  is_secure : Bool
deriving Repr, DecidableEq

/-- The pure part of the kwargs construction in `Dynamo.connection`, given
the already-coerced port value (`none` when local mode is disabled).
Credentials are deleted when either is falsy; host and port are deleted
when falsy (`del kwargs[...]`). -/
def mkKwargs (config : Config) (port0 : Option Int) : ConnKwargs :=
  let host0 : Option String :=
    if config.DYNAMO_ENABLE_LOCAL then config.DYNAMO_LOCAL_HOST else none
  let creds : Bool :=
    truthyStr config.AWS_ACCESS_KEY_ID && truthyStr config.AWS_SECRET_ACCESS_KEY
  { aws_access_key_id := if creds then config.AWS_ACCESS_KEY_ID else none
    aws_secret_access_key := if creds then config.AWS_SECRET_ACCESS_KEY else none
    host := if truthyStr host0 then host0 else none
    port :=
      match port0 with
      | some n => if n = 0 then none else some n
      | none => none
    is_secure := !config.DYNAMO_ENABLE_LOCAL }

/-- Building the kwargs dictionary in `Dynamo.connection`.  Evaluating the
dictionary literal runs `int(app.config['DYNAMO_LOCAL_PORT'])` when local
mode is enabled, which can raise before any parameters exist. -/
def buildConnKwargs (config : Config) : Except PyError ConnKwargs :=
  match (if config.DYNAMO_ENABLE_LOCAL
           then Except.map some (pyInt config.DYNAMO_LOCAL_PORT)
           else .ok none : Except PyError (Option Int)) with
  | .error e => .error e
  | .ok port0 => .ok (mkKwargs config port0)

/-- Model of `boto.dynamodb2.connect_to_region`: constructs a fresh connection
object (allocation id `alloc`) from the region and surviving kwargs. -/
def connect_to_region (alloc : Nat) (region : String) (kwargs : ConnKwargs) : Conn :=
  { alloc := alloc
    region := region
    aws_access_key_id := kwargs.aws_access_key_id
    aws_secret_access_key := kwargs.aws_secret_access_key
    host := kwargs.host
    port := kwargs.port
    is_secure := kwargs.is_secure }

/-- The Flask application context (`_app_ctx_stack.top`), used by the
registry purely as borrowed storage: the cached connection, the cached
table mapping, and the dynamically set `dynamo_table_<name>` attributes.
The table mapping is an association list in insertion order, modelling the
Python dict. -/
structure Ctx where
  dynamo_connection : Option Conn
  dynamo_tables : Option (List (String × Table))
  attrs : List (String × Table)
deriving Repr, DecidableEq

/-- A freshly pushed application context: no cached attributes. -/
def Ctx.fresh : Ctx := { dynamo_connection := none, dynamo_tables := none, attrs := [] }

/-- The body of the `Dynamo.connection` property once a context is known
to be active: return the cached connection, or construct one from the
configuration, cache it on the context, and consume one allocation id. -/
def connectionOnCtx (config : Config) (nextId : Nat) (c : Ctx) :
    Except PyError (Conn × Ctx × Nat) :=
  match c.dynamo_connection with
  | some conn => .ok (conn, c, nextId)
  | none =>
    match buildConnKwargs config with
    | .error e => .error e
    | .ok kwargs =>
      let conn := connect_to_region nextId config.AWS_REGION kwargs
      .ok (conn, { c with dynamo_connection := some conn }, nextId + 1)

/-- The `Dynamo.connection` property: when no context is active it returns
`None` without caching or constructing anything. -/
def connectionProp (config : Config) (nextId : Nat) (ctx : Option Ctx) :
    Except PyError (Option Conn × Option Ctx × Nat) :=
  match ctx with
  | none => .ok (none, none, nextId)
  | some c =>
    match connectionOnCtx config nextId c with
    | .error e => .error e
    | .ok (conn, c', nid') => .ok (some conn, some c', nid')

/-- Python dict assignment `d[k] = v` on an insertion-ordered association
list: replace the value at an existing key in place, else append. -/
def alistSet (k : String) (v : Table) : List (String × Table) → List (String × Table)
  | [] => [(k, v)]
  | (k', v') :: rest => if k' == k then (k, v) :: rest else (k', v') :: alistSet k v rest

/-- Whether the association list has an entry with key `k`. -/
def alistHasKey (k : String) (l : List (String × Table)) : Bool :=
  l.any (fun p => p.1 == k)

/-- Model of `if not hasattr(ctx, k): setattr(ctx, k, t)` for the dynamically named
table attributes on the context. -/
def Ctx.setAttrIfAbsent (c : Ctx) (k : String) (t : Table) : Ctx :=
  if c.attrs.any (fun p => p.1 == k) then c
  else { c with attrs := c.attrs ++ [(k, t)] }

/-- Whether the context carries a dynamically set attribute named `k`. -/
def Ctx.hasAttr (c : Ctx) (k : String) : Bool :=
  c.attrs.any (fun p => p.1 == k)

/-- The loop body of the `Dynamo.tables` property over the configured
table list: for each table, `table.connection = self.connection` (the
property, hence cached after the first construction), the dict entry
`ctx.dynamo_tables[table.table_name] = table`, and the
`dynamo_table_<name>` attribute set if absent.  Returns the updated
context, the allocation counter, the updated table objects (the same
objects stored in `app.config['DYNAMO_TABLES']`, now mutated), and the
accumulated dict. -/
def tablesGo (config : Config) :
    List Table → Ctx → Nat → List (String × Table) →
    Except PyError (Ctx × Nat × List Table × List (String × Table))
  | [], c, nid, accM => .ok (c, nid, [], accM)
  | t :: rest, c, nid, accM =>
    match connectionOnCtx config nid c with
    | .error e => .error e
    | .ok (conn, c1, nid1) =>
      let t' := { t with connection := some conn }
      let c2 := c1.setAttrIfAbsent ("dynamo_table_" ++ t.table_name) t'
      match tablesGo config rest c2 nid1 (alistSet t.table_name t' accM) with
      | .error e => .error e
      | .ok (c3, nid3, tabs3, m3) => .ok (c3, nid3, t' :: tabs3, m3)

/-- The body of the `Dynamo.tables` property once a context is known to be
active: return the cached mapping, or build it from the configured table
list, cache it on the context, and return the configuration whose stored
table objects now carry the reassigned `connection` attribute. -/
def tablesOnCtx (config : Config) (nextId : Nat) (c : Ctx) :
    Except PyError (List (String × Table) × Config × Ctx × Nat) :=
  match c.dynamo_tables with
  | some m => .ok (m, config, c, nextId)
  | none =>
    match tablesGo config config.DYNAMO_TABLES c nextId [] with
    | .error e => .error e
    | .ok (c', nid', tabs', m) =>
      .ok (m, { config with DYNAMO_TABLES := tabs' },
           { c' with dynamo_tables := some m }, nid')

/-- The `Dynamo.tables` property: when no context is active it returns
`None` without caching, constructing, or mutating anything. -/
def tablesProp (config : Config) (nextId : Nat) (ctx : Option Ctx) :
    Except PyError (Option (List (String × Table)) × Config × Option Ctx × Nat) :=
  match ctx with
  | none => .ok (none, config, none, nextId)
  | some c =>
    match tablesOnCtx config nextId c with
    | .error e => .error e
    | .ok (m, config', c', nid') => .ok (some m, config', some c', nid')

/-- The names resolvable on a `Dynamo` instance by Python's default
attribute machinery (instance attribute plus class members), for which
`__getattr__` is never invoked. -/
def instanceMembers : List String :=
  ["app", "DEFAULT_REGION", "init_app", "init_settings", "check_settings",
   "get_app", "connection", "tables", "create_all", "destroy_all"]

/-- Whether Python's default attribute lookup succeeds for `name`. -/
def isInstanceMember (name : String) : Bool := instanceMembers.contains name

/-- The result of an attribute lookup on the registry: an ordinary
instance/class member, or a table handle served by `__getattr__`. -/
inductive AttrValue where
  | member (name : String)
  | table (t : Table)
deriving Repr, DecidableEq

/-- Full Python 3 attribute lookup `getattr(dynamo, name)`, fuelled.
Default lookup succeeds for instance members; otherwise
`Dynamo.__getattr__` runs: it first evaluates `hasattr(self, name)`, which
re-runs this very lookup (consuming fuel; exhausted fuel is the
interpreter's `RecursionError`, which `hasattr` does not suppress — it
only suppresses `AttributeError`).  Only when that inner lookup raises
`AttributeError` does `__getattr__` fall through to the table dict. -/
def getattrFuel (config : Config) (nextId : Nat) (ctx : Option Ctx) :
    Nat → String → Except PyError AttrValue
  | 0, _ => .error .recursionError
  | fuel + 1, name =>
    if isInstanceMember name then .ok (.member name)
    else
      match getattrFuel config nextId ctx fuel name with
      | .ok v => .ok v
      | .error .attributeError =>
        match tablesProp config nextId ctx with
        | .error e => .error e
        | .ok (none, _, _, _) => .error .typeError
        | .ok (some m, _, _, _) =>
          match m.find? (fun p => p.1 == name) with
          | some p => .ok (.table p.2)
          | none => .error .attributeError
      | .error e => .error e

/-- The create-table request issued by `Dynamo.create_all` for one table:
`Table.create(table_name=..., schema=..., throughput=..., indexes=...,
global_indexes=..., connection=...)`. -/
structure CreateReq where
  table_name : String
  schema : Nat
  throughput : Nat
  indexes : Nat
  global_indexes : Nat
  connection : Conn
deriving Repr, DecidableEq

/-- The request `create_all` issues for table `t` over connection `conn`. -/
def reqOf (conn : Conn) (t : Table) : CreateReq :=
  { table_name := t.table_name
    schema := t.schema
    throughput := t.throughput
    indexes := t.indexes
    global_indexes := t.global_indexes
    connection := conn }

/-- The loop of `Dynamo.create_all` over `self.tables.items()`.  The
environment decides each request's outcome through the oracle `ok`; a
failing request propagates (`clientError`) and the loop stops, leaving the
requests already issued (returned as the second component) in place. -/
def createLoop (config : Config) (ok : CreateReq → Bool) :
    List (String × Table) → Ctx → Nat → Except PyError Unit × List CreateReq
  | [], _, _ => (.ok (), [])
  | (_, t) :: rest, c, nid =>
    match connectionOnCtx config nid c with
    | .error e => (.error e, [])
    | .ok (conn, c', nid') =>
      if ok (reqOf conn t) then
        let r := createLoop config ok rest c' nid'
        (r.1, reqOf conn t :: r.2)
      else (.error .clientError, [])

/-- Model of `Dynamo.create_all`: iterates `self.tables.items()` issuing one
create-table request per table.  When no context is active, `self.tables`
is `None` and `None.items()` raises `AttributeError`.  Returns the
outcome, the successfully created requests in order, and the resulting
configuration. -/
def create_all (config : Config) (nextId : Nat) (ctx : Option Ctx)
    (ok : CreateReq → Bool) : Except PyError Unit × List CreateReq × Config :=
  match ctx with
  | none => (.error .attributeError, [], config)
  | some c =>
    match tablesOnCtx config nextId c with
    | .error e => (.error e, [], config)
    | .ok (m, config', c', nid') =>
      let r := createLoop config' ok m c' nid'
      (r.1, r.2, config')

/-- The loop of `Dynamo.destroy_all` over `self.tables.items()`, with the
deletion outcome decided by the oracle `okd`. -/
def destroyLoop (okd : Table → Bool) :
    List (String × Table) → Except PyError Unit × List Table
  | [] => (.ok (), [])
  | (_, t) :: rest =>
    if okd t then
      let r := destroyLoop okd rest
      (r.1, t :: r.2)
    else (.error .clientError, [])

/-- Model of `Dynamo.destroy_all`: iterates `self.tables.items()` calling
`table.delete()`.  When no context is active, `self.tables` is `None` and
`None.items()` raises `AttributeError`. -/
def destroy_all (config : Config) (nextId : Nat) (ctx : Option Ctx)
    (okd : Table → Bool) : Except PyError Unit × List Table × Config :=
  match ctx with
  | none => (.error .attributeError, [], config)
  | some c =>
    match tablesOnCtx config nextId c with
    | .error e => (.error e, [], config)
    | .ok (m, config', _, _) =>
      let r := destroyLoop okd m
      (r.1, r.2, config')

/-! Concrete example values used by witnesses and counterexamples. -/

/-- A declared table named `users` with opaque metadata tags. -/
def tblUsers : Table :=
  { table_name := "users", schema := 1, throughput := 2, indexes := 3,
    global_indexes := 4, connection := none }

/-- A declared table named `groups` with opaque metadata tags. -/
def tblGroups : Table :=
  { table_name := "groups", schema := 5, throughput := 6, indexes := 7,
    global_indexes := 8, connection := none }

/-- A remote (non-local) configuration: two tables, a set access key but a
falsy secret key, host and port set although local mode is disabled. -/
def cfgRemote : Config :=
  { DYNAMO_TABLES := [tblUsers, tblGroups], DYNAMO_ENABLE_LOCAL := false,
    DYNAMO_LOCAL_HOST := some "localhost", DYNAMO_LOCAL_PORT := some "8000",
    AWS_ACCESS_KEY_ID := some "AKIA", AWS_SECRET_ACCESS_KEY := none,
    AWS_REGION := "us-west-2" }

/-- A local-mode configuration with host `localhost` and port `"8000"`. -/
def cfgLocal : Config :=
  { DYNAMO_TABLES := [tblUsers], DYNAMO_ENABLE_LOCAL := true,
    DYNAMO_LOCAL_HOST := some "localhost", DYNAMO_LOCAL_PORT := some "8000",
    AWS_ACCESS_KEY_ID := none, AWS_SECRET_ACCESS_KEY := none,
    AWS_REGION := "us-east-1" }

/-- The local-mode configuration with port string `"0"`. -/
def cfgPortZero : Config := { cfgLocal with DYNAMO_LOCAL_PORT := some "0" }

/-- The kwargs `connect_to_region` receives under `cfgRemote`. -/
def kwRemote : ConnKwargs :=
  { aws_access_key_id := none, aws_secret_access_key := none,
    host := none, port := none, is_secure := true }

/-- The kwargs `connect_to_region` receives under `cfgLocal`. -/
def kwLocal : ConnKwargs :=
  { aws_access_key_id := none, aws_secret_access_key := none,
    host := some "localhost", port := some 8000, is_secure := false }

/-- The first connection constructed under `cfgRemote` (allocation id 0). -/
def connR0 : Conn :=
  { alloc := 0, region := "us-west-2", aws_access_key_id := none,
    aws_secret_access_key := none, host := none, port := none,
    is_secure := true }

/-- The second connection constructed under `cfgRemote` (allocation id 1). -/
def connR1 : Conn := { connR0 with alloc := 1 }

/-- A first context after its connection has been constructed under
`cfgRemote`. -/
def ctxR1 : Ctx := { Ctx.fresh with dynamo_connection := some connR0 }

/-- A second, distinct context after its connection has been constructed
under `cfgRemote`. -/
def ctxR2 : Ctx := { Ctx.fresh with dynamo_connection := some connR1 }

/-- A creation oracle under which every create-table request succeeds. -/
def allOk : CreateReq → Bool := fun _ => true

/-- A deletion oracle under which every delete succeeds. -/
def allOkDel : Table → Bool := fun _ => true

/-- The `connection` property returns the cached connection unchanged when
one is already stored on the context, consuming no allocation id. -/
lemma connectionOnCtx_cached (config : Config) (nid : Nat) (c : Ctx)
    (conn : Conn) (h : c.dynamo_connection = some conn) :
    connectionOnCtx config nid c = .ok (conn, c, nid) := by
  unfold connectionOnCtx
  rw [h]

/-- Claim C3: `check_settings` raises `ConfigurationError` exactly when the
table list is empty or local mode is enabled with a missing (falsy) host or
port, and returns normally otherwise.  "Missing" is Python falsiness:
`None` or the empty string. -/
theorem C3_check_settings_exact (config : Config) :
    (check_settings config = .ok () ↔
      ¬(config.DYNAMO_TABLES = [] ∨
        (config.DYNAMO_ENABLE_LOCAL = true ∧
          (truthyStr config.DYNAMO_LOCAL_HOST = false ∨
           truthyStr config.DYNAMO_LOCAL_PORT = false)))) ∧
    ((∃ msg, check_settings config = .error (.configurationError msg)) ↔
      (config.DYNAMO_TABLES = [] ∨
        (config.DYNAMO_ENABLE_LOCAL = true ∧
          (truthyStr config.DYNAMO_LOCAL_HOST = false ∨
           truthyStr config.DYNAMO_LOCAL_PORT = false)))) := by
  obtain ⟨tabs, el, lh, lp, ak, sk, reg⟩ := config
  unfold check_settings
  cases tabs <;> cases el <;>
    cases hh : truthyStr lh <;> cases hp : truthyStr lp <;>
      simp_all

/-- Claim C4: whenever kwargs are actually passed to `connect_to_region`,
a falsy (empty or `None`) access key or secret key makes both credential
fields be omitted entirely; when both are truthy, both are passed
through. -/
theorem C4_credentials_omitted (config : Config) (kwargs : ConnKwargs)
    (h : buildConnKwargs config = .ok kwargs) :
    ((truthyStr config.AWS_ACCESS_KEY_ID = false ∨
      truthyStr config.AWS_SECRET_ACCESS_KEY = false) →
        kwargs.aws_access_key_id = none ∧ kwargs.aws_secret_access_key = none) ∧
    (truthyStr config.AWS_ACCESS_KEY_ID = true →
     truthyStr config.AWS_SECRET_ACCESS_KEY = true →
        kwargs.aws_access_key_id = config.AWS_ACCESS_KEY_ID ∧
        kwargs.aws_secret_access_key = config.AWS_SECRET_ACCESS_KEY) := by
  unfold buildConnKwargs at h
  split at h
  · cases h
  · rename_i port0 heq
    injection h with h
    subst h
    unfold mkKwargs
    cases hak : truthyStr config.AWS_ACCESS_KEY_ID <;>
      cases hsk : truthyStr config.AWS_SECRET_ACCESS_KEY <;>
        simp [hak, hsk]

/-- Witness for C4 at `cfgRemote` (set access key, falsy secret key):
both credential kwargs are omitted. -/
theorem C4_witness :
    kwRemote.aws_access_key_id = none ∧ kwRemote.aws_secret_access_key = none :=
  (C4_credentials_omitted cfgRemote kwRemote (by decide)).1 (by decide)

/-- Counterexample for C5: under `cfgPortZero` local mode is enabled, the
host is present and the port is present (the configuration passes
`check_settings`), yet the constructed parameters omit the port, because
`int("0")` is falsy and the `del kwargs['port']` branch fires.  The claim
says the parameters include the integer-coerced port. -/
theorem C5_counterexample :
    check_settings cfgPortZero = .ok () ∧
    buildConnKwargs cfgPortZero =
      .ok { aws_access_key_id := none, aws_secret_access_key := none,
            host := some "localhost", port := none, is_secure := false } := by
  decide

/-- Claim C5 (amended): with local mode disabled the parameters omit host
and port even when both are set, and transport security is on; with local
mode enabled, a truthy host present, and a port string coercing to a
nonzero integer `n`, the parameters include the configured host, port `n`,
and transport security off. -/
theorem C5_local_mode_params (config : Config) :
    (config.DYNAMO_ENABLE_LOCAL = false →
      buildConnKwargs config = .ok (mkKwargs config none) ∧
      (mkKwargs config none).host = none ∧
      (mkKwargs config none).port = none ∧
      (mkKwargs config none).is_secure = true) ∧
    (∀ (n : Int) (kwargs : ConnKwargs), config.DYNAMO_ENABLE_LOCAL = true →
      truthyStr config.DYNAMO_LOCAL_HOST = true →
      pyInt config.DYNAMO_LOCAL_PORT = .ok n → n ≠ 0 →
      buildConnKwargs config = .ok kwargs →
      kwargs.host = config.DYNAMO_LOCAL_HOST ∧
      kwargs.port = some n ∧
      kwargs.is_secure = false) := by
  constructor
  · intro hl
    unfold buildConnKwargs mkKwargs
    simp [hl, truthyStr]
  · intro n kwargs hl hh hp hn hb
    unfold buildConnKwargs at hb
    rw [hl] at hb
    rw [hp] at hb
    simp only [Except.map] at hb
    injection hb with hb
    subst hb
    unfold mkKwargs
    simp [hl, hh, hn]

/-- Witness for C5 at `cfgRemote` (local disabled, host and port set) and
`cfgLocal` (local enabled, host `localhost`, port `"8000"`). -/
theorem C5_witness :
    (buildConnKwargs cfgRemote = .ok (mkKwargs cfgRemote none) ∧
     (mkKwargs cfgRemote none).host = none ∧
     (mkKwargs cfgRemote none).port = none ∧
     (mkKwargs cfgRemote none).is_secure = true) ∧
    (kwLocal.host = cfgLocal.DYNAMO_LOCAL_HOST ∧
     kwLocal.port = some 8000 ∧
     kwLocal.is_secure = false) :=
  ⟨(C5_local_mode_params cfgRemote).1 rfl,
   (C5_local_mode_params cfgLocal).2 8000 kwLocal rfl (by decide) (by decide)
     (by decide) (by decide)⟩

/-- Claim C8: with no active context, both properties return `None`
without failing, cache nothing (the context stays absent), construct no
connection (the allocation counter is unchanged), and leave the
configuration untouched. -/
theorem C8_no_scope_returns_none (config : Config) (nid : Nat) :
    connectionProp config nid none = .ok (none, none, nid) ∧
    tablesProp config nid none = .ok (none, config, none, nid) :=
  ⟨rfl, rfl⟩

/-- Claim C10: with no active context, `create_all` and `destroy_all`
fail by raising (iterating `None.items()` is an `AttributeError`), issuing
no requests, rather than succeeding as a no-op. -/
theorem C10_no_scope_bulk_ops_raise (config : Config) (nid : Nat)
    (ok : CreateReq → Bool) (okd : Table → Bool) :
    create_all config nid none ok = (.error .attributeError, [], config) ∧
    destroy_all config nid none okd = (.error .attributeError, [], config) :=
  ⟨rfl, rfl⟩

/-- Claim C1: constructing the connection in a scope caches it there: the
second access returns the identical instance and performs no
reconstruction (the allocation counter does not advance); constructing in
a second, distinct scope yields a distinct instance. -/
theorem C1_connection_per_scope (config : Config) (nid : Nat) (c1 c2 : Ctx)
    (conn1 conn2 : Conn) (c1' c2' : Ctx) (nid1 nid2 : Nat)
    (h1 : c1.dynamo_connection = none) (h2 : c2.dynamo_connection = none)
    (hc1 : connectionOnCtx config nid c1 = .ok (conn1, c1', nid1))
    (hc2 : connectionOnCtx config nid1 c2 = .ok (conn2, c2', nid2)) :
    connectionOnCtx config nid1 c1' = .ok (conn1, c1', nid1) ∧
    connectionOnCtx config nid2 c2' = .ok (conn2, c2', nid2) ∧
    conn1 ≠ conn2 := by
  unfold connectionOnCtx at hc1 hc2
  rw [h1] at hc1
  rw [h2] at hc2
  cases hb : buildConnKwargs config with
  | error e =>
    rw [hb] at hc1
    cases hc1
  | ok kwargs =>
    rw [hb] at hc1 hc2
    simp only [Except.ok.injEq, Prod.mk.injEq] at hc1 hc2
    obtain ⟨e1, e2, e3⟩ := hc1
    obtain ⟨f1, f2, f3⟩ := hc2
    subst e1; subst e2; subst e3
    subst f1; subst f2; subst f3
    refine ⟨connectionOnCtx_cached _ _ _ _ rfl,
            connectionOnCtx_cached _ _ _ _ rfl, ?_⟩
    intro hcontra
    have halloc := congrArg Conn.alloc hcontra
    simp [connect_to_region] at halloc

/-- Witness for C1: two fresh contexts under `cfgRemote` get connections
with allocation ids 0 and 1; each is cached on its own context. -/
theorem C1_witness :
    connectionOnCtx cfgRemote 1 ctxR1 = .ok (connR0, ctxR1, 1) ∧
    connectionOnCtx cfgRemote 2 ctxR2 = .ok (connR1, ctxR2, 2) ∧
    connR0 ≠ connR1 :=
  C1_connection_per_scope cfgRemote 0 Ctx.fresh Ctx.fresh connR0 connR1
    ctxR1 ctxR2 1 2 rfl rfl (by decide) (by decide)

/-- For any name Python's default lookup cannot resolve, `__getattr__`
re-enters the full lookup through `hasattr(self, name)`, so the lookup
recurses without progress: at every recursion bound it ends in the
interpreter's recursion-limit error, never reaching the table dict. -/
lemma getattr_nonmember_diverges (config : Config) (nid : Nat)
    (ctx : Option Ctx) (name : String) (h : isInstanceMember name = false) :
    ∀ fuel, getattrFuel config nid ctx fuel name = .error .recursionError := by
  intro fuel
  induction fuel with
  | zero => rfl
  | succ k ih =>
    unfold getattrFuel
    simp [h, ih]

/-- Claim C7: attribute access `dynamo.users` under `cfgLocal` (where
`users` is a configured table and not an instance member) never returns
the table handle and never raises `AttributeError`: for every recursion
bound it dies with the recursion-limit error, because `__getattr__`
evaluates `hasattr(self, name)`, which re-runs the failed lookup and
re-enters `__getattr__`.  This contradicts the method's own docstring
("returns: A Table object if the table was found. raises: AttributeError
on error"). -/
theorem C7_attr_lookup_diverges :
    ∀ fuel, getattrFuel cfgLocal 0 (some Ctx.fresh) fuel "users" =
      .error .recursionError :=
  fun fuel =>
    getattr_nonmember_diverges cfgLocal 0 (some Ctx.fresh) "users" (by decide) fuel

/-! Helper lemmas about the attribute and dict folds performed by the
`tables` property. -/

/-- Model of `table.connection = self.connection` on one table object. -/
def bindConn (conn : Conn) (t : Table) : Table := { t with connection := some conn }

/-- The context after the `tables` loop has set the `dynamo_table_<name>`
attributes for `ts`, all bound to `conn`. -/
def ctxFold (conn : Conn) (ts : List Table) (c : Ctx) : Ctx :=
  ts.foldl
    (fun cc t => cc.setAttrIfAbsent ("dynamo_table_" ++ t.table_name) (bindConn conn t)) c

/-- The dict after the `tables` loop has inserted the handles for `ts`,
all bound to `conn`, starting from `accM`. -/
def mapFold (conn : Conn) (ts : List Table) (accM : List (String × Table)) :
    List (String × Table) :=
  ts.foldl (fun acc t => alistSet t.table_name (bindConn conn t) acc) accM

lemma setAttrIfAbsent_dynamo_connection (c : Ctx) (k : String) (t : Table) :
    (c.setAttrIfAbsent k t).dynamo_connection = c.dynamo_connection := by
  unfold Ctx.setAttrIfAbsent
  split <;> rfl

lemma setAttrIfAbsent_dynamo_tables (c : Ctx) (k : String) (t : Table) :
    (c.setAttrIfAbsent k t).dynamo_tables = c.dynamo_tables := by
  unfold Ctx.setAttrIfAbsent
  split <;> rfl

lemma setAttrIfAbsent_hasAttr_self (c : Ctx) (k : String) (t : Table) :
    (c.setAttrIfAbsent k t).hasAttr k = true := by
  unfold Ctx.setAttrIfAbsent Ctx.hasAttr
  split
  · assumption
  · simp

lemma setAttrIfAbsent_hasAttr_mono (c : Ctx) (k k' : String) (t : Table)
    (h : c.hasAttr k' = true) : (c.setAttrIfAbsent k t).hasAttr k' = true := by
  unfold Ctx.hasAttr at h
  unfold Ctx.setAttrIfAbsent Ctx.hasAttr
  split
  · exact h
  · simp only [List.any_append]
    simp [h]

lemma ctxFold_dynamo_connection (conn : Conn) :
    ∀ (ts : List Table) (c : Ctx),
      (ctxFold conn ts c).dynamo_connection = c.dynamo_connection := by
  intro ts
  induction ts with
  | nil => intro c; rfl
  | cons t rest ih =>
    intro c
    unfold ctxFold
    rw [List.foldl_cons]
    have := ih (c.setAttrIfAbsent ("dynamo_table_" ++ t.table_name) (bindConn conn t))
    unfold ctxFold at this
    rw [this, setAttrIfAbsent_dynamo_connection]

lemma ctxFold_dynamo_tables (conn : Conn) :
    ∀ (ts : List Table) (c : Ctx),
      (ctxFold conn ts c).dynamo_tables = c.dynamo_tables := by
  intro ts
  induction ts with
  | nil => intro c; rfl
  | cons t rest ih =>
    intro c
    unfold ctxFold
    rw [List.foldl_cons]
    have := ih (c.setAttrIfAbsent ("dynamo_table_" ++ t.table_name) (bindConn conn t))
    unfold ctxFold at this
    rw [this, setAttrIfAbsent_dynamo_tables]

lemma ctxFold_hasAttr_mono (conn : Conn) :
    ∀ (ts : List Table) (c : Ctx) (k : String),
      c.hasAttr k = true → (ctxFold conn ts c).hasAttr k = true := by
  intro ts
  induction ts with
  | nil => intro c k h; exact h
  | cons t rest ih =>
    intro c k h
    unfold ctxFold
    rw [List.foldl_cons]
    have := ih (c.setAttrIfAbsent ("dynamo_table_" ++ t.table_name) (bindConn conn t)) k
      (setAttrIfAbsent_hasAttr_mono _ _ _ _ h)
    unfold ctxFold at this
    exact this

lemma ctxFold_hasAttr_mem (conn : Conn) :
    ∀ (ts : List Table) (c : Ctx) (t : Table), t ∈ ts →
      (ctxFold conn ts c).hasAttr ("dynamo_table_" ++ t.table_name) = true := by
  intro ts
  induction ts with
  | nil => intro c t h; cases h
  | cons t0 rest ih =>
    intro c t h
    unfold ctxFold
    rw [List.foldl_cons]
    rcases List.mem_cons.mp h with rfl | hmem
    · have := ctxFold_hasAttr_mono conn rest
        (c.setAttrIfAbsent ("dynamo_table_" ++ t.table_name) (bindConn conn t))
        ("dynamo_table_" ++ t.table_name)
        (setAttrIfAbsent_hasAttr_self _ _ _)
      unfold ctxFold at this
      exact this
    · have := ih (c.setAttrIfAbsent ("dynamo_table_" ++ t0.table_name) (bindConn conn t0))
        t hmem
      unfold ctxFold at this
      exact this

lemma alistSet_mem (k : String) (v : Table) :
    ∀ (l : List (String × Table)) (p : String × Table),
      p ∈ alistSet k v l → p = (k, v) ∨ p ∈ l := by
  intro l
  induction l with
  | nil =>
    intro p hp
    unfold alistSet at hp
    simp at hp
    exact Or.inl hp
  | cons q rest ih =>
    intro p hp
    unfold alistSet at hp
    split at hp
    · rcases List.mem_cons.mp hp with rfl | h
      · exact Or.inl rfl
      · exact Or.inr (List.mem_cons_of_mem _ h)
    · rcases List.mem_cons.mp hp with rfl | h
      · exact Or.inr (List.mem_cons_self _ _)
      · rcases ih p h with h' | h'
        · exact Or.inl h'
        · exact Or.inr (List.mem_cons_of_mem _ h')

lemma alistSet_hasKey_self (k : String) (v : Table) :
    ∀ (l : List (String × Table)), alistHasKey k (alistSet k v l) = true := by
  intro l
  induction l with
  | nil => simp [alistSet, alistHasKey]
  | cons q rest ih =>
    unfold alistSet
    split
    · simp [alistHasKey]
    · unfold alistHasKey at ih ⊢
      simp only [List.any_cons]
      rw [ih]
      simp

lemma alistSet_hasKey_mono (k k' : String) (v : Table) :
    ∀ (l : List (String × Table)), alistHasKey k' l = true →
      alistHasKey k' (alistSet k v l) = true := by
  intro l
  induction l with
  | nil => intro h; cases h
  | cons q rest ih =>
    intro h
    unfold alistHasKey at h
    simp only [List.any_cons, Bool.or_eq_true] at h
    unfold alistSet
    split
    · rename_i heq
      unfold alistHasKey
      simp only [List.any_cons, Bool.or_eq_true]
      rcases h with h | h
      · left
        have : q.1 = k := by simpa using heq
        rw [← this]
        exact h
      · right
        exact h
    · unfold alistHasKey
      simp only [List.any_cons, Bool.or_eq_true]
      rcases h with h | h
      · exact Or.inl h
      · exact Or.inr (ih (by unfold alistHasKey; simpa using h))

lemma mapFold_mem (conn : Conn) :
    ∀ (ts : List Table) (accM : List (String × Table)) (p : String × Table),
      p ∈ mapFold conn ts accM →
      p ∈ accM ∨ ∃ t ∈ ts, p = (t.table_name, bindConn conn t) := by
  intro ts
  induction ts with
  | nil =>
    intro accM p hp
    exact Or.inl hp
  | cons t rest ih =>
    intro accM p hp
    unfold mapFold at hp
    rw [List.foldl_cons] at hp
    have step := ih (alistSet t.table_name (bindConn conn t) accM) p
      (by unfold mapFold; exact hp)
    rcases step with h | ⟨t', ht', rfl⟩
    · rcases alistSet_mem _ _ _ _ h with rfl | h'
      · exact Or.inr ⟨t, List.mem_cons_self _ _, rfl⟩
      · exact Or.inl h'
    · exact Or.inr ⟨t', List.mem_cons_of_mem _ ht', rfl⟩

lemma mapFold_hasKey_mono (conn : Conn) :
    ∀ (ts : List Table) (accM : List (String × Table)) (k : String),
      alistHasKey k accM = true → alistHasKey k (mapFold conn ts accM) = true := by
  intro ts
  induction ts with
  | nil => intro accM k h; exact h
  | cons t rest ih =>
    intro accM k h
    unfold mapFold
    rw [List.foldl_cons]
    have := ih (alistSet t.table_name (bindConn conn t) accM) k
      (alistSet_hasKey_mono _ _ _ _ h)
    unfold mapFold at this
    exact this

lemma mapFold_hasKey_mem (conn : Conn) :
    ∀ (ts : List Table) (accM : List (String × Table)) (t : Table), t ∈ ts →
      alistHasKey t.table_name (mapFold conn ts accM) = true := by
  intro ts
  induction ts with
  | nil => intro accM t h; cases h
  | cons t0 rest ih =>
    intro accM t h
    unfold mapFold
    rw [List.foldl_cons]
    rcases List.mem_cons.mp h with rfl | hmem
    · have := mapFold_hasKey_mono conn rest
        (alistSet t.table_name (bindConn conn t) accM) t.table_name
        (alistSet_hasKey_self _ _ _)
      unfold mapFold at this
      exact this
    · have := ih (alistSet t0.table_name (bindConn conn t0) accM) t hmem
      unfold mapFold at this
      exact this

/-- When the context already caches connection `conn`, the `tables` loop
is a pure fold: it binds every table to `conn`, inserts every handle into
the dict, sets the attributes, and consumes no allocation id. -/
lemma tablesGo_cached (config : Config) (conn : Conn) :
    ∀ (ts : List Table) (c : Ctx) (nid : Nat) (accM : List (String × Table)),
      c.dynamo_connection = some conn →
      tablesGo config ts c nid accM =
        .ok (ctxFold conn ts c, nid, ts.map (bindConn conn), mapFold conn ts accM) := by
  intro ts
  induction ts with
  | nil => intro c nid accM h; rfl
  | cons t rest ih =>
    intro c nid accM h
    have hc2 : ((c.setAttrIfAbsent ("dynamo_table_" ++ t.table_name)
        (bindConn conn t)).dynamo_connection) = some conn := by
      rw [setAttrIfAbsent_dynamo_connection]
      exact h
    unfold tablesGo
    simp only [connectionOnCtx_cached config nid c conn h]
    simp only [bindConn] at hc2
    simp only [ih _ nid _ hc2]
    simp only [ctxFold, mapFold, List.foldl_cons, List.map_cons, bindConn]

/-- An erroring first connection construction makes the whole `tables`
loop propagate the error. -/
lemma tablesGo_conn_error (config : Config) (t : Table) (restT : List Table)
    (c : Ctx) (nid : Nat) (accM : List (String × Table)) (e : PyError)
    (hcc : c.dynamo_connection = none) (hb : buildConnKwargs config = .error e) :
    tablesGo config (t :: restT) c nid accM = .error e := by
  unfold tablesGo connectionOnCtx
  rw [hcc, hb]

/-- Caching a just-constructed connection on the context. -/
def cacheConn (c : Ctx) (conn : Conn) : Ctx := { c with dynamo_connection := some conn }

lemma cacheConn_dynamo_connection (c : Ctx) (conn : Conn) :
    (cacheConn c conn).dynamo_connection = some conn := rfl

/-- A nonempty `tables` loop started without a cached connection first
constructs one (consuming one allocation id, caching it on the context)
and then proceeds exactly as the cached loop. -/
lemma tablesGo_uncached (config : Config) (t : Table) (restT : List Table)
    (c : Ctx) (nid : Nat) (accM : List (String × Table)) (kwargs : ConnKwargs)
    (hcc : c.dynamo_connection = none) (hb : buildConnKwargs config = .ok kwargs) :
    tablesGo config (t :: restT) c nid accM =
      tablesGo config (t :: restT)
        (cacheConn c (connect_to_region nid config.AWS_REGION kwargs)) (nid + 1) accM := by
  have hstep : connectionOnCtx config nid c =
      .ok (connect_to_region nid config.AWS_REGION kwargs,
        cacheConn c (connect_to_region nid config.AWS_REGION kwargs), nid + 1) := by
    unfold connectionOnCtx
    rw [hcc, hb]
    rfl
  conv_lhs => rw [tablesGo]
  conv_rhs => rw [tablesGo]
  rw [hstep, connectionOnCtx_cached _ _ _ _ (cacheConn_dynamo_connection _ _)]

/-- The properties of the fold results that the `tables` property promises:
every handle in the dict is bound to `conn` and keyed by its own name,
every listed table has its key in the dict and its attribute on the
context, and the context still caches `conn`. -/
lemma tablesFold_props (conn : Conn) (ts : List Table) (c : Ctx)
    (hcc : c.dynamo_connection = some conn) :
    (∀ p ∈ mapFold conn ts [], p.2.connection = some conn ∧ p.2.table_name = p.1) ∧
    (∀ t ∈ ts, alistHasKey t.table_name (mapFold conn ts []) = true ∧
      (ctxFold conn ts c).hasAttr ("dynamo_table_" ++ t.table_name) = true) ∧
    (ctxFold conn ts c).dynamo_connection = some conn := by
  refine ⟨?_, ?_, ?_⟩
  · intro p hp
    rcases mapFold_mem conn ts [] p hp with h | ⟨t, -, rfl⟩
    · cases h
    · exact ⟨rfl, rfl⟩
  · intro t ht
    exact ⟨mapFold_hasKey_mem conn ts [] t ht, ctxFold_hasAttr_mem conn ts c t ht⟩
  · rw [ctxFold_dynamo_connection]
    exact hcc

/-- Claim C2 (amended): on first access within a scope, `tables` iterates
the configured table list, binds each handle to the scope's cached
connection, stores each handle in a dict keyed by its table name, and
exposes each handle as the scope-local attribute `dynamo_table_<name>`
(not `table_<name>` as the claim states); every subsequent call in the
scope returns the identical cached dict, and every handle's bound
connection equals the connection the scope's `connection` property
returns. -/
theorem C2_tables_cached_and_bound (config : Config) (nid : Nat) (c : Ctx)
    (m : List (String × Table)) (config' : Config) (c' : Ctx) (nid' : Nat)
    (hct : c.dynamo_tables = none)
    (hm : tablesOnCtx config nid c = .ok (m, config', c', nid')) :
    tablesOnCtx config' nid' c' = .ok (m, config', c', nid') ∧
    (∀ conn, c'.dynamo_connection = some conn →
      connectionOnCtx config' nid' c' = .ok (conn, c', nid')) ∧
    (∀ p ∈ m, p.2.connection = c'.dynamo_connection ∧ p.2.table_name = p.1) ∧
    (∀ t ∈ config.DYNAMO_TABLES,
      alistHasKey t.table_name m = true ∧
      c'.hasAttr ("dynamo_table_" ++ t.table_name) = true) := by
  unfold tablesOnCtx at hm
  rw [hct] at hm
  cases hg : tablesGo config config.DYNAMO_TABLES c nid [] with
  | error e =>
    rw [hg] at hm
    cases hm
  | ok r =>
    obtain ⟨c0, nid0, tabs0, m0⟩ := r
    rw [hg] at hm
    simp only [Except.ok.injEq, Prod.mk.injEq] at hm
    obtain ⟨hm1, hm2, hm3, hm4⟩ := hm
    subst hm1
    subst hm2
    subst hm3
    subst hm4
    have hcd : (∀ p ∈ m0, p.2.connection = c0.dynamo_connection ∧
          p.2.table_name = p.1) ∧
        (∀ t ∈ config.DYNAMO_TABLES, alistHasKey t.table_name m0 = true ∧
          c0.hasAttr ("dynamo_table_" ++ t.table_name) = true) := by
      cases hts : config.DYNAMO_TABLES with
      | nil =>
        rw [hts] at hg
        simp only [tablesGo, Except.ok.injEq, Prod.mk.injEq] at hg
        obtain ⟨rfl, rfl, rfl, rfl⟩ := hg
        constructor
        · intro p hp
          cases hp
        · intro t ht
          cases ht
      | cons t restT =>
        rw [hts] at hg
        cases hcc : c.dynamo_connection with
        | some conn =>
          rw [tablesGo_cached config conn (t :: restT) c nid [] hcc] at hg
          simp only [Except.ok.injEq, Prod.mk.injEq] at hg
          obtain ⟨rfl, rfl, rfl, rfl⟩ := hg
          have core := tablesFold_props conn (t :: restT) c hcc
          constructor
          · intro p hp
            rw [core.2.2]
            exact core.1 p hp
          · intro t2 ht2
            exact core.2.1 t2 ht2
        | none =>
          cases hb : buildConnKwargs config with
          | error e =>
            rw [tablesGo_conn_error config t restT c nid [] e hcc hb] at hg
            cases hg
          | ok kwargs =>
            rw [tablesGo_uncached config t restT c nid [] kwargs hcc hb] at hg
            rw [tablesGo_cached config (connect_to_region nid config.AWS_REGION kwargs)
              (t :: restT) (cacheConn c (connect_to_region nid config.AWS_REGION kwargs))
              (nid + 1) [] (cacheConn_dynamo_connection _ _)] at hg
            simp only [Except.ok.injEq, Prod.mk.injEq] at hg
            obtain ⟨rfl, rfl, rfl, rfl⟩ := hg
            have core := tablesFold_props (connect_to_region nid config.AWS_REGION kwargs)
              (t :: restT) (cacheConn c (connect_to_region nid config.AWS_REGION kwargs))
              (cacheConn_dynamo_connection _ _)
            constructor
            · intro p hp
              rw [core.2.2]
              exact core.1 p hp
            · intro t2 ht2
              exact core.2.1 t2 ht2
    exact ⟨rfl, fun conn2 hcc2 => connectionOnCtx_cached _ _ _ _ hcc2, hcd.1, hcd.2⟩

/-- The connection constructed on first access under `cfgLocal`. -/
def connLocal : Conn :=
  { alloc := 0, region := "us-east-1", aws_access_key_id := none,
    aws_secret_access_key := none, host := some "localhost",
    port := some 8000, is_secure := false }

/-- The `users` table object after `tables` has bound it to `connLocal`. -/
def tblUsersBound : Table := { tblUsers with connection := some connLocal }

/-- The state of `cfgLocal` after the first `tables` access: the stored table object
now carries the bound connection. -/
def cfgLocalMut : Config := { cfgLocal with DYNAMO_TABLES := [tblUsersBound] }

/-- The context after the first `tables` access under `cfgLocal`. -/
def ctxLocalDone : Ctx :=
  { dynamo_connection := some connLocal,
    dynamo_tables := some [("users", tblUsersBound)],
    attrs := [("dynamo_table_users", tblUsersBound)] }

/-- Counterexample for C2 as stated: the first `tables` access on a fresh
context under `cfgLocal` yields exactly `ctxLocalDone`, which exposes the
handle under the scope-local attribute `dynamo_table_users` and has no
attribute `table_users`, contradicting the claimed attribute naming
convention `table_<name>`. -/
theorem C2_counterexample :
    tablesOnCtx cfgLocal 0 Ctx.fresh =
      .ok ([("users", tblUsersBound)], cfgLocalMut, ctxLocalDone, 1) ∧
    ctxLocalDone.hasAttr "table_users" = false ∧
    ctxLocalDone.hasAttr "dynamo_table_users" = true := by
  decide

/-- Witness for C2 (amended) at `cfgLocal`: the second call returns the
identical cached dict, the scope's `connection` returns the cached
`connLocal`, the handle is bound to it, and the `dynamo_table_users`
attribute is set. -/
theorem C2_witness :
    tablesOnCtx cfgLocalMut 1 ctxLocalDone =
      .ok ([("users", tblUsersBound)], cfgLocalMut, ctxLocalDone, 1) ∧
    connectionOnCtx cfgLocalMut 1 ctxLocalDone = .ok (connLocal, ctxLocalDone, 1) ∧
    tblUsersBound.connection = ctxLocalDone.dynamo_connection ∧
    tblUsersBound.table_name = "users" ∧
    alistHasKey "users" [("users", tblUsersBound)] = true ∧
    ctxLocalDone.hasAttr ("dynamo_table_" ++ "users") = true := by
  have H := C2_tables_cached_and_bound cfgLocal 0 Ctx.fresh
    [("users", tblUsersBound)] cfgLocalMut ctxLocalDone 1 rfl (by decide)
  have hmem : ("users", tblUsersBound) ∈ [("users", tblUsersBound)] :=
    List.mem_singleton.mpr rfl
  have hmemT : tblUsers ∈ cfgLocal.DYNAMO_TABLES := by
    show tblUsers ∈ [tblUsers]
    exact List.mem_singleton.mpr rfl
  refine ⟨H.1, H.2.1 connLocal rfl, (H.2.2.1 _ hmem).1, (H.2.2.1 _ hmem).2,
    ?_, ?_⟩
  · exact (H.2.2.2 tblUsers hmemT).1
  · exact (H.2.2.2 tblUsers hmemT).2

/-- The per-table metadata that the caller declared at configuration time:
everything except the mutable bound connection. -/
def Table.meta (t : Table) : String × Nat × Nat × Nat × Nat :=
  (t.table_name, t.schema, t.throughput, t.indexes, t.global_indexes)

/-- Two configurations agree on every option value and on all declared
table metadata; they may differ only in the tables' bound connections. -/
def configMetaEq (a b : Config) : Prop :=
  a.DYNAMO_TABLES.map Table.meta = b.DYNAMO_TABLES.map Table.meta ∧
  a.DYNAMO_ENABLE_LOCAL = b.DYNAMO_ENABLE_LOCAL ∧
  a.DYNAMO_LOCAL_HOST = b.DYNAMO_LOCAL_HOST ∧
  a.DYNAMO_LOCAL_PORT = b.DYNAMO_LOCAL_PORT ∧
  a.AWS_ACCESS_KEY_ID = b.AWS_ACCESS_KEY_ID ∧
  a.AWS_SECRET_ACCESS_KEY = b.AWS_SECRET_ACCESS_KEY ∧
  a.AWS_REGION = b.AWS_REGION

/-- The `tables` loop preserves all declared table metadata: the updated
table objects differ from the configured ones only in their bound
connection. -/
lemma tablesGo_meta (config : Config) :
    ∀ (ts : List Table) (c : Ctx) (nid : Nat) (accM : List (String × Table))
      (c0 : Ctx) (nid0 : Nat) (tabs0 : List Table) (m0 : List (String × Table)),
      tablesGo config ts c nid accM = .ok (c0, nid0, tabs0, m0) →
      tabs0.map Table.meta = ts.map Table.meta := by
  intro ts
  induction ts with
  | nil =>
    intro c nid accM c0 nid0 tabs0 m0 h
    simp only [tablesGo, Except.ok.injEq, Prod.mk.injEq] at h
    obtain ⟨-, -, rfl, -⟩ := h
    rfl
  | cons t rest ih =>
    intro c nid accM c0 nid0 tabs0 m0 h
    unfold tablesGo at h
    split at h
    · cases h
    · dsimp only at h
      split at h
      · cases h
      · rename_i conn c1 nid1 hconn c3 nid3 tabs3 m3 hrec
        simp only [Except.ok.injEq, Prod.mk.injEq] at h
        obtain ⟨-, -, rfl, -⟩ := h
        rw [List.map_cons, List.map_cons]
        rw [ih _ _ _ _ _ _ _ hrec]
        rfl

/-- Counterexample for C6 as stated: the first `tables` access during
request handling mutates an object stored in the shared configuration —
the `users` table object in `DYNAMO_TABLES` has its `connection`
attribute reassigned, so the configuration after the access differs from
the configuration before it. -/
theorem C6_counterexample :
    tablesOnCtx cfgLocal 0 Ctx.fresh =
      .ok ([("users", tblUsersBound)], cfgLocalMut, ctxLocalDone, 1) ∧
    cfgLocalMut ≠ cfgLocal ∧
    cfgLocalMut.DYNAMO_TABLES ≠ cfgLocal.DYNAMO_TABLES := by
  decide

/-- Claim C6 (amended): during request handling the configuration's option
values and every table's declared metadata (name, schema, throughput,
indexes, global indexes) stay unmodified; the only write to shared
configuration state is that the first `tables` access in a scope (also
reached through `create_all` and `destroy_all`) reassigns the bound
`connection` attribute of each table object stored in the configured
table list.  `connection` and `check_settings` only read the
configuration (in this embedding they do not even return one). -/
theorem C6_config_mutation_only_rebinds (config : Config) (nid : Nat) (c : Ctx)
    (m : List (String × Table)) (config' : Config) (c' : Ctx) (nid' : Nat)
    (hm : tablesOnCtx config nid c = .ok (m, config', c', nid')) :
    configMetaEq config config' ∧
    (∀ ok, (create_all config nid (some c) ok).2.2 = config') ∧
    (∀ okd, (destroy_all config nid (some c) okd).2.2 = config') := by
  refine ⟨?_, ?_, ?_⟩
  · unfold tablesOnCtx at hm
    cases hct : c.dynamo_tables with
    | some m2 =>
      rw [hct] at hm
      simp only [Except.ok.injEq, Prod.mk.injEq] at hm
      obtain ⟨-, rfl, -, -⟩ := hm
      exact ⟨rfl, rfl, rfl, rfl, rfl, rfl, rfl⟩
    | none =>
      rw [hct] at hm
      cases hg : tablesGo config config.DYNAMO_TABLES c nid [] with
      | error e =>
        rw [hg] at hm
        cases hm
      | ok r =>
        obtain ⟨c0, nid0, tabs0, m0⟩ := r
        rw [hg] at hm
        simp only [Except.ok.injEq, Prod.mk.injEq] at hm
        obtain ⟨-, rfl, -, -⟩ := hm
        refine ⟨?_, rfl, rfl, rfl, rfl, rfl, rfl⟩
        exact (tablesGo_meta config _ _ _ _ _ _ _ _ hg).symm
  · intro ok
    simp only [create_all, hm]
  · intro okd
    simp only [destroy_all, hm]

/-- Witness for C6 (amended) at `cfgLocal`: the mutated configuration
agrees with the original on all metadata, and the bulk operations produce
exactly that configuration. -/
theorem C6_witness :
    configMetaEq cfgLocal cfgLocalMut ∧
    (create_all cfgLocal 0 (some Ctx.fresh) allOk).2.2 = cfgLocalMut ∧
    (destroy_all cfgLocal 0 (some Ctx.fresh) allOkDel).2.2 = cfgLocalMut := by
  have H := C6_config_mutation_only_rebinds cfgLocal 0 Ctx.fresh
    [("users", tblUsersBound)] cfgLocalMut ctxLocalDone 1 (by decide)
  exact ⟨H.1, H.2.1 allOk, H.2.2 allOkDel⟩

/-- When the connection is cached and every request succeeds, the
`create_all` loop issues one request per dict entry, in order. -/
lemma createLoop_all_ok (config : Config) (ok : CreateReq → Bool) (conn : Conn) :
    ∀ (m : List (String × Table)) (c : Ctx) (nid : Nat),
      c.dynamo_connection = some conn →
      (∀ p ∈ m, ok (reqOf conn p.2) = true) →
      createLoop config ok m c nid = (.ok (), m.map (fun p => reqOf conn p.2)) := by
  intro m
  induction m with
  | nil => intro c nid h hall; rfl
  | cons q rest ih =>
    obtain ⟨k, t⟩ := q
    intro c nid h hall
    have hq : ok (reqOf conn t) = true := hall (k, t) (List.mem_cons_self _ _)
    unfold createLoop
    rw [connectionOnCtx_cached config nid c conn h]
    simp only [hq, if_true]
    rw [ih c nid h (fun p hp => hall p (List.mem_cons_of_mem _ hp))]
    exact rfl

/-- When the connection is cached, the requests before the first failing
one are issued and remain issued; at the failure the error propagates and
the loop stops. -/
lemma createLoop_fail (config : Config) (ok : CreateReq → Bool) (conn : Conn) :
    ∀ (pre : List (String × Table)) (c : Ctx) (nid : Nat) (q : String × Table)
      (post : List (String × Table)),
      c.dynamo_connection = some conn →
      (∀ p ∈ pre, ok (reqOf conn p.2) = true) →
      ok (reqOf conn q.2) = false →
      createLoop config ok (pre ++ q :: post) c nid =
        (.error .clientError, pre.map (fun p => reqOf conn p.2)) := by
  intro pre
  induction pre with
  | nil =>
    intro c nid q post h hall hq
    obtain ⟨k, t⟩ := q
    rw [List.nil_append]
    unfold createLoop
    rw [connectionOnCtx_cached config nid c conn h]
    simp only [hq]
    rfl
  | cons q0 rest ih =>
    obtain ⟨k0, t0⟩ := q0
    intro c nid q post h hall hq
    have hq0 : ok (reqOf conn t0) = true := hall (k0, t0) (List.mem_cons_self _ _)
    rw [List.cons_append]
    unfold createLoop
    rw [connectionOnCtx_cached config nid c conn h]
    simp only [hq0, if_true]
    rw [ih c nid q post h (fun p hp => hall p (List.mem_cons_of_mem _ hp)) hq]
    exact rfl

/-- Claim C9: `create_all` issues one create-table request per configured
table over the scope's current connection, carrying that table's declared
schema, throughput, local indexes and global indexes; when every request
succeeds it completes with the full request list, and when some request
fails the error propagates while the requests issued before the failing
one remain issued — no rollback. -/
theorem C9_create_all_requests (config : Config) (nid : Nat) (c : Ctx)
    (ok : CreateReq → Bool) (m : List (String × Table)) (config' : Config)
    (c' : Ctx) (nid' : Nat) (conn : Conn)
    (ht : tablesOnCtx config nid c = .ok (m, config', c', nid'))
    (hc : c'.dynamo_connection = some conn) :
    ((∀ p ∈ m, ok (reqOf conn p.2) = true) →
      create_all config nid (some c) ok =
        (.ok (), m.map (fun p => reqOf conn p.2), config')) ∧
    (∀ pre q post, m = pre ++ q :: post →
      (∀ p ∈ pre, ok (reqOf conn p.2) = true) → ok (reqOf conn q.2) = false →
      create_all config nid (some c) ok =
        (.error .clientError, pre.map (fun p => reqOf conn p.2), config')) := by
  constructor
  · intro hall
    simp only [create_all, ht]
    rw [createLoop_all_ok config' ok conn m c' nid' hc hall]
  · intro pre q post hsplit hall hq
    simp only [create_all, ht]
    subst hsplit
    rw [createLoop_fail config' ok conn pre c' nid' q post hc hall hq]

/-- The `users` table bound to the remote connection. -/
def tblUsersBoundR : Table := { tblUsers with connection := some connR0 }

/-- The `groups` table bound to the remote connection. -/
def tblGroupsBoundR : Table := { tblGroups with connection := some connR0 }

/-- The state of `cfgRemote` after the first `tables` access. -/
def cfgRemoteMut : Config :=
  { cfgRemote with DYNAMO_TABLES := [tblUsersBoundR, tblGroupsBoundR] }

/-- The context after the first `tables` access under `cfgRemote`. -/
def ctxRemoteDone : Ctx :=
  { dynamo_connection := some connR0,
    dynamo_tables := some [("users", tblUsersBoundR), ("groups", tblGroupsBoundR)],
    attrs := [("dynamo_table_users", tblUsersBoundR),
              ("dynamo_table_groups", tblGroupsBoundR)] }

/-- A creation oracle that fails exactly on the `groups` table. -/
def okFailGroups : CreateReq → Bool := fun r => !(r.table_name == "groups")

/-- Witness for C9 under `cfgRemote`: with every request succeeding both
tables are created in order; with `groups` failing, the error propagates
and `users` (created first) remains created. -/
theorem C9_witness :
    create_all cfgRemote 0 (some Ctx.fresh) allOk =
      (.ok (), [reqOf connR0 tblUsersBoundR, reqOf connR0 tblGroupsBoundR],
        cfgRemoteMut) ∧
    create_all cfgRemote 0 (some Ctx.fresh) okFailGroups =
      (.error .clientError, [reqOf connR0 tblUsersBoundR], cfgRemoteMut) := by
  have H1 := C9_create_all_requests cfgRemote 0 Ctx.fresh allOk
    [("users", tblUsersBoundR), ("groups", tblGroupsBoundR)]
    cfgRemoteMut ctxRemoteDone 1 connR0 (by decide) rfl
  have H2 := C9_create_all_requests cfgRemote 0 Ctx.fresh okFailGroups
    [("users", tblUsersBoundR), ("groups", tblGroupsBoundR)]
    cfgRemoteMut ctxRemoteDone 1 connR0 (by decide) rfl
  constructor
  · exact H1.1 (by decide)
  · exact H2.2 [("users", tblUsersBoundR)] ("groups", tblGroupsBoundR) []
      rfl (by decide) (by decide)

end FlaskDynamo
